import Mathlib

/-!
Shallow embedding of the map / mesh-building core of the `little-tanks`
game (files `src/map.rs`, `src/meshutils.rs`, `src/texture.rs`,
`src/errors.rs`).  Machine integers (`u8`, `u16`) are modelled as `Nat`
with an explicit `% 65536` wherever the Rust arithmetic can wrap;
`f32` quantities are modelled as `ℚ` (every value the theorems below
touch is a small dyadic rational, on which `f32` arithmetic is exact).
-/

namespace LittleTanks

/-- Tile enumeration from `map.rs` (`pub enum Tile`).  Each variant's gid
(the Rust discriminant) is recovered by `Tile.get_gid` below. -/
inductive Tile where
  | Oob
  | Ground
  | Hole
  | Water
  | Swamp
  | Wall1
  | Wall2
  | Wall3
  | Wall4
  | Wall5
  | Box1
  | Box2
  | Box3
  | Box4
  | Box5
  | Player1Spawn
  | Player2Spawn
  | Player3Spawn
  | Player4Spawn
  | StationaryEnemy
  | BasicEnemy
  | FastEnemy
  | HeatSeekerEnemy
  | RocketEnemy
  | Mine
  | Crate
  deriving DecidableEq, Repr, Inhabited, Fintype

/-- EnemyType from `map.rs`. -/
inductive EnemyType where
  | Stationary
  | Basic
  | Fast
  | HeatSeeker
  | Rocket
  deriving DecidableEq, Repr

/-- ObjectType from `map.rs`. -/
inductive ObjectType where
  | Mine
  | Crate
  deriving DecidableEq, Repr

/-- Spawn from `map.rs`. -/
inductive Spawn where
  | Player (idx : Nat)
  | Enemy (t : EnemyType)
  | Object (t : ObjectType)
  deriving DecidableEq, Repr

/-- Rust `*self as u8`: the discriminant assigned to each variant in the
`enum Tile` declaration. -/
def Tile.get_gid : Tile → Nat
  | .Oob => 1
  | .Ground => 9
  | .Hole => 17
  | .Water => 5
  | .Swamp => 6
  | .Wall1 => 2
  | .Wall2 => 10
  | .Wall3 => 18
  | .Wall4 => 26
  | .Wall5 => 34
  | .Box1 => 3
  | .Box2 => 11
  | .Box3 => 19
  | .Box4 => 27
  | .Box5 => 35
  | .Player1Spawn => 13
  | .Player2Spawn => 21
  | .Player3Spawn => 29
  | .Player4Spawn => 37
  | .StationaryEnemy => 8
  | .BasicEnemy => 16
  | .FastEnemy => 24
  | .HeatSeekerEnemy => 40
  | .RocketEnemy => 32
  | .Mine => 25
  | .Crate => 4

/-- Rust `Tile::from_gid`, i.e. the derived `FromPrimitive::from_u8`:
returns the variant whose discriminant equals `gid`, `none` otherwise. -/
def Tile.from_gid (gid : Nat) : Option Tile :=
  if gid = 1 then some .Oob
  else if gid = 9 then some .Ground
  else if gid = 17 then some .Hole
  else if gid = 5 then some .Water
  else if gid = 6 then some .Swamp
  else if gid = 2 then some .Wall1
  else if gid = 10 then some .Wall2
  else if gid = 18 then some .Wall3
  else if gid = 26 then some .Wall4
  else if gid = 34 then some .Wall5
  else if gid = 3 then some .Box1
  else if gid = 11 then some .Box2
  else if gid = 19 then some .Box3
  else if gid = 27 then some .Box4
  else if gid = 35 then some .Box5
  else if gid = 13 then some .Player1Spawn
  else if gid = 21 then some .Player2Spawn
  else if gid = 29 then some .Player3Spawn
  else if gid = 37 then some .Player4Spawn
  else if gid = 8 then some .StationaryEnemy
  else if gid = 16 then some .BasicEnemy
  else if gid = 24 then some .FastEnemy
  else if gid = 40 then some .HeatSeekerEnemy
  else if gid = 32 then some .RocketEnemy
  else if gid = 25 then some .Mine
  else if gid = 4 then some .Crate
  else none

/-- Rust `Tile::is_oob`. -/
def Tile.is_oob : Tile → Bool
  | .Oob => true
  | _ => false

/-- Rust `Tile::get_spawn`. -/
def Tile.get_spawn : Tile → Option Spawn
  | .Player1Spawn => some (.Player 0)
  | .Player2Spawn => some (.Player 1)
  | .Player3Spawn => some (.Player 2)
  | .Player4Spawn => some (.Player 3)
  | .StationaryEnemy => some (.Enemy .Stationary)
  | .BasicEnemy => some (.Enemy .Basic)
  | .FastEnemy => some (.Enemy .Fast)
  | .HeatSeekerEnemy => some (.Enemy .HeatSeeker)
  | .RocketEnemy => some (.Enemy .Rocket)
  | .Mine => some (.Object .Mine)
  | .Crate => some (.Object .Crate)
  | _ => none

/-- Rust `Tile::is_spawn`. -/
def Tile.is_spawn (t : Tile) : Bool :=
  t.get_spawn.isSome

/-- Rust `Tile::is_ground`: spawns count as ground, then `Oob` and
`Ground` themselves. -/
def Tile.is_ground (t : Tile) : Bool :=
  if t.is_spawn then true
  else
    match t with
    | .Oob => true
    | .Ground => true
    | _ => false

/-- Rust `Tile::is_fluid`. -/
def Tile.is_fluid : Tile → Bool
  | .Water => true
  | .Swamp => true
  | _ => false

/-- Rust `Tile::height`. -/
def Tile.height : Tile → Nat
  | .Wall1 => 1
  | .Box1 => 1
  | .Wall2 => 2
  | .Box2 => 2
  | .Wall3 => 3
  | .Box3 => 3
  | .Wall4 => 4
  | .Box4 => 4
  | .Wall5 => 5
  | .Box5 => 5
  | _ => 0

/-- Rust `Tile::is_obstacle`. -/
def Tile.is_obstacle (t : Tile) : Bool :=
  t.height > 0

/-- Rust `Tile::blocks_bullet`. -/
def Tile.blocks_bullet (t : Tile) : Bool :=
  t.height > 0

/-- Model of the data reachable through the Rust `Texture` trait: own
pixel size, absolute atlas offset, and the root atlas (`info`) pixel
size.  A `BasicTexture` has offset `(0,0)` and `info` equal to its own
size; a `TextureSlice` carries its own rectangle and the parent's
`info`. -/
structure Texture where
  width : Nat
  height : Nat
  offset_x : Nat
  offset_y : Nat
  info_width : Nat
  info_height : Nat
  deriving DecidableEq, Repr

/-- Rust `BasicTexture` viewed through the `Texture` trait: offsets are
zero and the texture is its own root atlas. -/
def BasicTexture (w h : Nat) : Texture :=
  { width := w, height := h, offset_x := 0, offset_y := 0,
    info_width := w, info_height := h }

/-- Rust `Texture::slice`: a sub-rectangle whose absolute offset adds
the parent's offset, keeping the root atlas dimensions. -/
def Texture.slice (t : Texture) (x y w h : Nat) : Texture :=
  { width := w, height := h,
    offset_x := t.offset_x + x, offset_y := t.offset_y + y,
    info_width := t.info_width, info_height := t.info_height }

/-- Rust `Texture::get_measurements`: normalized scale and offset
against the root atlas dimensions (`f32` divisions, exact in `ℚ` for
the power-of-two sizes used here). -/
def Texture.get_measurements (t : Texture) : ℚ × ℚ × ℚ × ℚ :=
  ((t.width : ℚ) / (t.info_width : ℚ),
   (t.height : ℚ) / (t.info_height : ℚ),
   (t.offset_x : ℚ) / (t.info_width : ℚ),
   (t.offset_y : ℚ) / (t.info_height : ℚ))

/-- Rust `Tile::get_texture_slice`: cell lookup in an 8x8 atlas.  The
`u8`/`u16` arithmetic cannot wrap here (gid is at most 40 and at least
1, the factors stay far below 2^16), so plain `Nat` arithmetic is
exact. -/
def Tile.get_texture_slice (t : Tile) (tex : Texture) : Texture :=
  let idx := t.get_gid - 1
  let w := tex.width / 8
  let h := tex.height / 8
  tex.slice ((idx % 8) * w) ((idx / 8) * h) w h

/-- Cube face template from `meshutils.rs` (`struct CubeSide`): four
corner offsets, one normal, four UV corners. -/
structure CubeSide where
  pos : Fin 4 → ℚ × ℚ × ℚ
  normal : ℚ × ℚ × ℚ
  tex_coord : Fin 4 → ℚ × ℚ

/-- Static `CUBE_INDEXES` table from `meshutils.rs`. -/
def CUBE_INDEXES : List (Fin 4) := [0, 1, 2, 0, 2, 3]

/-- Static `CUBE_SIDE_NEAR` template. -/
def CUBE_SIDE_NEAR : CubeSide where
  pos := fun i =>
    match i with
    | 0 => (-1, -1, 1)
    | 1 => (1, -1, 1)
    | 2 => (1, 1, 1)
    | 3 => (-1, 1, 1)
  normal := (0, 0, 1)
  tex_coord := fun i =>
    match i with
    | 0 => (0, 1)
    | 1 => (1, 1)
    | 2 => (1, 0)
    | 3 => (0, 0)

/-- Static `CUBE_SIDE_FAR` template. -/
def CUBE_SIDE_FAR : CubeSide where
  pos := fun i =>
    match i with
    | 0 => (-1, -1, -1)
    | 1 => (-1, 1, -1)
    | 2 => (1, 1, -1)
    | 3 => (1, -1, -1)
  normal := (0, 0, -1)
  tex_coord := fun i =>
    match i with
    | 0 => (1, 1)
    | 1 => (1, 0)
    | 2 => (0, 0)
    | 3 => (0, 1)

/-- Static `CUBE_SIDE_TOP` template. -/
def CUBE_SIDE_TOP : CubeSide where
  pos := fun i =>
    match i with
    | 0 => (-1, 1, -1)
    | 1 => (-1, 1, 1)
    | 2 => (1, 1, 1)
    | 3 => (1, 1, -1)
  normal := (0, 1, 0)
  tex_coord := fun i =>
    match i with
    | 0 => (1, 1)
    | 1 => (1, 0)
    | 2 => (0, 0)
    | 3 => (0, 1)

/-- Static `CUBE_SIDE_BOTTOM` template. -/
def CUBE_SIDE_BOTTOM : CubeSide where
  pos := fun i =>
    match i with
    | 0 => (-1, -1, -1)
    | 1 => (1, -1, -1)
    | 2 => (1, -1, 1)
    | 3 => (-1, -1, 1)
  normal := (0, -1, 0)
  tex_coord := fun i =>
    match i with
    | 0 => (0, 1)
    | 1 => (1, 1)
    | 2 => (1, 0)
    | 3 => (0, 0)

/-- Static `CUBE_SIDE_LEFT` template. -/
def CUBE_SIDE_LEFT : CubeSide where
  pos := fun i =>
    match i with
    | 0 => (-1, -1, -1)
    | 1 => (-1, -1, 1)
    | 2 => (-1, 1, 1)
    | 3 => (-1, 1, -1)
  normal := (-1, 0, 0)
  tex_coord := fun i =>
    match i with
    | 0 => (0, 1)
    | 1 => (1, 1)
    | 2 => (1, 0)
    | 3 => (0, 0)

/-- Static `CUBE_SIDE_RIGHT` template. -/
def CUBE_SIDE_RIGHT : CubeSide where
  pos := fun i =>
    match i with
    | 0 => (1, -1, -1)
    | 1 => (1, 1, -1)
    | 2 => (1, 1, 1)
    | 3 => (1, -1, 1)
  normal := (1, 0, 0)
  tex_coord := fun i =>
    match i with
    | 0 => (1, 1)
    | 1 => (1, 0)
    | 2 => (0, 0)
    | 3 => (0, 1)

/-- Vertex record from `meshutils.rs` (`pub struct Vertex`). -/
structure Vertex where
  pos : ℚ × ℚ × ℚ
  tex_coord : ℚ × ℚ
  normal : ℚ × ℚ × ℚ
  deriving DecidableEq, Repr

/-- Accumulating buffers from `meshutils.rs` (`pub struct CubeMaker`).
The Rust index buffer holds `u16`; indices are therefore stored here
already reduced `% 65536`. -/
structure CubeMaker where
  vertices : List Vertex
  indexes : List Nat
  deriving DecidableEq, Repr

/-- Rust `CubeMaker::new`. -/
def CubeMaker.new : CubeMaker :=
  { vertices := [], indexes := [] }

/-- Rust `CubeMaker::add_side`: for each entry of `CUBE_INDEXES` pushes
one index (the current vertex count, cast to `u16`) and one vertex
built from the face template, the world position and the slice
measurements. -/
def CubeMaker.add_side (s : CubeMaker) (cs : CubeSide) (pos : ℚ × ℚ × ℚ)
    (size : ℚ) (tex : Texture) : CubeMaker :=
  let halfsize := size / 2
  let m := tex.get_measurements
  CUBE_INDEXES.foldl (fun st i =>
    let c := cs.pos i
    let t := cs.tex_coord i
    { indexes := st.indexes ++ [st.vertices.length % 65536],
      vertices := st.vertices ++
        [{ pos := (pos.1 + c.1 * halfsize, pos.2.1 + c.2.1 * halfsize,
                   pos.2.2 + c.2.2 * halfsize),
           tex_coord := (t.1 * m.1 + m.2.2.1, t.2 * m.2.1 + m.2.2.2),
           normal := cs.normal }] }) s

/-- Rust `CubeMaker::add_near_side`. -/
def CubeMaker.add_near_side (s : CubeMaker) (pos : ℚ × ℚ × ℚ) (size : ℚ)
    (tex : Texture) : CubeMaker :=
  s.add_side CUBE_SIDE_NEAR pos size tex

/-- Rust `CubeMaker::add_far_side`. -/
def CubeMaker.add_far_side (s : CubeMaker) (pos : ℚ × ℚ × ℚ) (size : ℚ)
    (tex : Texture) : CubeMaker :=
  s.add_side CUBE_SIDE_FAR pos size tex

/-- Rust `CubeMaker::add_left_side`. -/
def CubeMaker.add_left_side (s : CubeMaker) (pos : ℚ × ℚ × ℚ) (size : ℚ)
    (tex : Texture) : CubeMaker :=
  s.add_side CUBE_SIDE_LEFT pos size tex

/-- Rust `CubeMaker::add_right_side`. -/
def CubeMaker.add_right_side (s : CubeMaker) (pos : ℚ × ℚ × ℚ) (size : ℚ)
    (tex : Texture) : CubeMaker :=
  s.add_side CUBE_SIDE_RIGHT pos size tex

/-- Rust `CubeMaker::add_top_side`. -/
def CubeMaker.add_top_side (s : CubeMaker) (pos : ℚ × ℚ × ℚ) (size : ℚ)
    (tex : Texture) : CubeMaker :=
  s.add_side CUBE_SIDE_TOP pos size tex

/-- Rust `CubeMaker::add_bottom_side`. -/
def CubeMaker.add_bottom_side (s : CubeMaker) (pos : ℚ × ℚ × ℚ) (size : ℚ)
    (tex : Texture) : CubeMaker :=
  s.add_side CUBE_SIDE_BOTTOM pos size tex

/-- Rust `CubeMaker::add_all_sides`. -/
def CubeMaker.add_all_sides (s : CubeMaker) (pos : ℚ × ℚ × ℚ) (size : ℚ)
    (tex : Texture) : CubeMaker :=
  (((((s.add_near_side pos size tex).add_far_side pos size tex).add_left_side
    pos size tex).add_right_side pos size tex).add_top_side pos size
    tex).add_bottom_side pos size tex

/-- Rust `CubeMaker::finish`. -/
def CubeMaker.finish (s : CubeMaker) : List Vertex × List Nat :=
  (s.vertices, s.indexes)

/-- Error type from `errors.rs`; only the variant reachable from the
map/mesh core (`GameError::InvalidMap`) is modelled, the remaining
variants wrap errors of excluded I/O collaborators. -/
inductive GameError where
  | InvalidMap (desc : String)
  deriving DecidableEq, Repr

/-- Map record from `map.rs` (`pub struct Map`). -/
structure Map where
  width : Nat
  height : Nat
  tiles : List Tile
  deriving DecidableEq, Repr

/-- Rust `Map::open` after the file/JSON decoding done by excluded
collaborators: `data` is the decoded `layers[0].data` byte vector and
`width`/`height` the decoded `u16` dimensions.  Unknown gids fall back
to `Tile::Oob` (`unwrap_or`); the dimension check multiplies two `u16`
values, which wraps modulo 2^16 before the comparison. -/
def Map.open (data : List Nat) (width height : Nat) : Except GameError Map :=
  let tiles := data.map (fun x => (Tile.from_gid x).getD Tile.Oob)
  if (width * height) % 65536 ≠ tiles.length then
    .error (.InvalidMap "Invalid dimensions")
  else
    .ok { width := width, height := height, tiles := tiles }

/-- Rust `Map::get_tile`: row-major lookup `tiles[y * width + x]`, the
index computed in `u16`.  Out-of-range access panics in Rust; it is
modelled by the `Tile.Oob` default and is unreachable from the mesh
builder, whose loops stay inside the grid (spec section 4.2). -/
def Map.get_tile (m : Map) (x y : Nat) : Tile :=
  m.tiles.getD ((y * m.width + x) % 65536) Tile.Oob

/-- Mesh-building state from `map.rs` (`struct MapMeshBuilder`), minus
the GPU device handle, which only matters to the excluded upload
step. -/
structure MapMeshBuilder where
  map : Map
  texture_map : Texture
  tile_size : ℚ
  cube_maker : CubeMaker
  deriving DecidableEq, Repr

/-- Rust `MapMeshBuilder::new`. -/
def MapMeshBuilder.new (texture_map : Texture) (map : Map)
    (tile_size : ℚ) : MapMeshBuilder :=
  { map := map, texture_map := texture_map, tile_size := tile_size,
    cube_maker := CubeMaker.new }

/-- Rust `MapMeshBuilder::get_pos`.  The subtraction `height - y - 1`
is `u16` arithmetic; every call site has `y < height`, where it agrees
with truncated `Nat` subtraction. -/
def MapMeshBuilder.get_pos (b : MapMeshBuilder) (x y z : Nat) : ℚ × ℚ × ℚ :=
  ((x : ℚ) * b.tile_size,
   (z : ℚ) * b.tile_size,
   ((b.map.height - y - 1 : ℕ) : ℚ) * b.tile_size)

/-- Rust `MapMeshBuilder::add_ground_tile`: one top face at stack level
0, textured with `Tile::Ground`'s atlas slice. -/
def MapMeshBuilder.add_ground_tile (b : MapMeshBuilder) (x y : Nat) :
    MapMeshBuilder :=
  let pos := b.get_pos x y 0
  let tex := Tile.Ground.get_texture_slice b.texture_map
  { b with cube_maker := b.cube_maker.add_top_side pos b.tile_size tex }

/-- Rust `MapMeshBuilder::add_box`: for `z` in `1..=height`, the four
side faces, plus the top face at the topmost level. -/
def MapMeshBuilder.add_box (b : MapMeshBuilder) (x y : Nat) (height : Nat)
    (tile : Tile) : MapMeshBuilder :=
  (List.range' 1 height).foldl (fun b' z =>
    let pos := b'.get_pos x y z
    let tex := tile.get_texture_slice b'.texture_map
    let cm := (((b'.cube_maker.add_left_side pos b'.tile_size
      tex).add_right_side pos b'.tile_size tex).add_far_side pos
      b'.tile_size tex).add_near_side pos b'.tile_size tex
    let cm := if z = height then cm.add_top_side pos b'.tile_size tex else cm
    { b' with cube_maker := cm }) b

/-- Loop body of Rust `MapMeshBuilder::build_mesh` for one grid cell. -/
def MapMeshBuilder.buildStep (b : MapMeshBuilder) (x y : Nat) :
    MapMeshBuilder :=
  let tile := b.map.get_tile x y
  if tile.is_ground then b.add_ground_tile x y
  else if tile.height > 0 then b.add_box x y tile.height tile
  else b

/-- Rust `MapMeshBuilder::build_mesh`: row-major walk over the grid. -/
def MapMeshBuilder.build_mesh (b : MapMeshBuilder) : MapMeshBuilder :=
  (List.range b.map.height).foldl (fun br y =>
    (List.range br.map.width).foldl (fun bc x => bc.buildStep x y) br) b

/-- One call against the public mutating interface of `CubeMaker`
(`add_side` and its per-face wrappers, or `add_all_sides`), together
with its arguments. -/
inductive CubeOp where
  | side (cs : CubeSide) (pos : ℚ × ℚ × ℚ) (size : ℚ) (tex : Texture)
  | near (pos : ℚ × ℚ × ℚ) (size : ℚ) (tex : Texture)
  | far (pos : ℚ × ℚ × ℚ) (size : ℚ) (tex : Texture)
  | left (pos : ℚ × ℚ × ℚ) (size : ℚ) (tex : Texture)
  | right (pos : ℚ × ℚ × ℚ) (size : ℚ) (tex : Texture)
  | top (pos : ℚ × ℚ × ℚ) (size : ℚ) (tex : Texture)
  | bottom (pos : ℚ × ℚ × ℚ) (size : ℚ) (tex : Texture)
  | all (pos : ℚ × ℚ × ℚ) (size : ℚ) (tex : Texture)

/-- Dispatch of one `CubeOp` to the corresponding `CubeMaker` method. -/
def CubeMaker.applyOp (s : CubeMaker) : CubeOp → CubeMaker
  | .side cs pos size tex => s.add_side cs pos size tex
  | .near pos size tex => s.add_near_side pos size tex
  | .far pos size tex => s.add_far_side pos size tex
  | .left pos size tex => s.add_left_side pos size tex
  | .right pos size tex => s.add_right_side pos size tex
  | .top pos size tex => s.add_top_side pos size tex
  | .bottom pos size tex => s.add_bottom_side pos size tex
  | .all pos size tex => s.add_all_sides pos size tex

/-- The buffer invariant of `CubeMaker`: the index buffer is the
consecutive sequence `0, 1, 2, ...` of the vertex positions, each entry
truncated to 16 bits, with one index per vertex. -/
def consecutiveIndexes (s : CubeMaker) : Prop :=
  s.indexes = (List.range s.vertices.length).map (fun i => i % 65536)

/-- Concrete 512x512 atlas used by the concrete test cases of the
spec. -/
def atlas512 : Texture := BasicTexture 512 512

/-- Concrete 1x1 map holding a single `Ground` tile. -/
def groundMap : Map := { width := 1, height := 1, tiles := [Tile.Ground] }

/-- Concrete 1x1 map holding a single `Wall3` tile. -/
def wall3Map : Map := { width := 1, height := 1, tiles := [Tile.Wall3] }

/-- Concrete 1x1 map holding a single `Water` tile. -/
def waterMap : Map := { width := 1, height := 1, tiles := [Tile.Water] }

/-- Mesh builder over the 1x1 ground map with tile size 1. -/
def groundBuilder : MapMeshBuilder := MapMeshBuilder.new atlas512 groundMap 1

/-- Mesh builder over the 1x1 `Wall3` map with tile size 1. -/
def wall3Builder : MapMeshBuilder := MapMeshBuilder.new atlas512 wall3Map 1

end LittleTanks

namespace LittleTanks

/-! Helper lemmas shared by several of the claim theorems below. -/

/-- Effect of one `add_side` call on the buffers: six vertices appended,
six indices appended, the indices being the consecutive vertex
positions truncated to 16 bits. -/
theorem CubeMaker.add_side_shape (s : CubeMaker) (cs : CubeSide)
    (pos : ℚ × ℚ × ℚ) (size : ℚ) (tex : Texture) :
    (s.add_side cs pos size tex).vertices.length = s.vertices.length + 6 ∧
    (s.add_side cs pos size tex).indexes = s.indexes ++
      [s.vertices.length % 65536, (s.vertices.length + 1) % 65536,
       (s.vertices.length + 2) % 65536, (s.vertices.length + 3) % 65536,
       (s.vertices.length + 4) % 65536, (s.vertices.length + 5) % 65536] := by
  simp [CubeMaker.add_side, CUBE_INDEXES]

/-- Gids of 41 and above hit the final fall-through arm of
`from_gid`. -/
theorem from_gid_none_of_ge (g : Nat) (hg : 41 ≤ g) :
    Tile.from_gid g = none := by
  unfold Tile.from_gid
  rw [if_neg (show ¬ g = 1 by omega)]
  rw [if_neg (show ¬ g = 9 by omega)]
  rw [if_neg (show ¬ g = 17 by omega)]
  rw [if_neg (show ¬ g = 5 by omega)]
  rw [if_neg (show ¬ g = 6 by omega)]
  rw [if_neg (show ¬ g = 2 by omega)]
  rw [if_neg (show ¬ g = 10 by omega)]
  rw [if_neg (show ¬ g = 18 by omega)]
  rw [if_neg (show ¬ g = 26 by omega)]
  rw [if_neg (show ¬ g = 34 by omega)]
  rw [if_neg (show ¬ g = 3 by omega)]
  rw [if_neg (show ¬ g = 11 by omega)]
  rw [if_neg (show ¬ g = 19 by omega)]
  rw [if_neg (show ¬ g = 27 by omega)]
  rw [if_neg (show ¬ g = 35 by omega)]
  rw [if_neg (show ¬ g = 13 by omega)]
  rw [if_neg (show ¬ g = 21 by omega)]
  rw [if_neg (show ¬ g = 29 by omega)]
  rw [if_neg (show ¬ g = 37 by omega)]
  rw [if_neg (show ¬ g = 8 by omega)]
  rw [if_neg (show ¬ g = 16 by omega)]
  rw [if_neg (show ¬ g = 24 by omega)]
  rw [if_neg (show ¬ g = 40 by omega)]
  rw [if_neg (show ¬ g = 32 by omega)]
  rw [if_neg (show ¬ g = 25 by omega)]
  rw [if_neg (show ¬ g = 4 by omega)]

/-- Round-trip over the bounded gid range, settled by evaluation. -/
theorem from_gid_gid_lt (g : Nat) (t : Tile) (hg : g < 41)
    (h : Tile.from_gid g = some t) : t.get_gid = g := by
  revert h
  revert t
  revert hg
  revert g
  decide

/-- One `add_side` call preserves the consecutive-index invariant. -/
theorem consecutiveIndexes_add_side (s : CubeMaker) (cs : CubeSide)
    (pos : ℚ × ℚ × ℚ) (size : ℚ) (tex : Texture)
    (h : consecutiveIndexes s) :
    consecutiveIndexes (s.add_side cs pos size tex) := by
  obtain ⟨hlen, hidx⟩ := CubeMaker.add_side_shape s cs pos size tex
  unfold consecutiveIndexes at *
  rw [hidx, hlen, h, List.range_add]
  simp [List.range_succ]

/-- Every `CubeMaker` method preserves the consecutive-index
invariant. -/
theorem consecutiveIndexes_applyOp (s : CubeMaker) (op : CubeOp)
    (h : consecutiveIndexes s) : consecutiveIndexes (s.applyOp op) := by
  cases op with
  | side cs pos size tex => exact consecutiveIndexes_add_side _ _ _ _ _ h
  | near pos size tex => exact consecutiveIndexes_add_side _ _ _ _ _ h
  | far pos size tex => exact consecutiveIndexes_add_side _ _ _ _ _ h
  | left pos size tex => exact consecutiveIndexes_add_side _ _ _ _ _ h
  | right pos size tex => exact consecutiveIndexes_add_side _ _ _ _ _ h
  | top pos size tex => exact consecutiveIndexes_add_side _ _ _ _ _ h
  | bottom pos size tex => exact consecutiveIndexes_add_side _ _ _ _ _ h
  | all pos size tex =>
    simp only [CubeMaker.applyOp, CubeMaker.add_all_sides,
      CubeMaker.add_near_side, CubeMaker.add_far_side,
      CubeMaker.add_left_side, CubeMaker.add_right_side,
      CubeMaker.add_top_side, CubeMaker.add_bottom_side]
    exact consecutiveIndexes_add_side _ _ _ _ _
      (consecutiveIndexes_add_side _ _ _ _ _
        (consecutiveIndexes_add_side _ _ _ _ _
          (consecutiveIndexes_add_side _ _ _ _ _
            (consecutiveIndexes_add_side _ _ _ _ _
              (consecutiveIndexes_add_side _ _ _ _ _ h)))))

/-- The consecutive-index invariant is preserved along any call
sequence. -/
theorem consecutiveIndexes_foldl (ops : List CubeOp) :
    ∀ s : CubeMaker, consecutiveIndexes s →
    consecutiveIndexes (ops.foldl CubeMaker.applyOp s) := by
  induction ops with
  | nil => intro s h; exact h
  | cons op tl ih =>
    intro s h
    exact ih _ (consecutiveIndexes_applyOp s op h)

/-- In-range `get_tile` reads a tile actually stored in the grid. -/
theorem Map.get_tile_mem (m : Map) (x y : Nat)
    (hw : m.tiles.length = m.width * m.height)
    (hx : x < m.width) (hy : y < m.height) :
    m.get_tile x y ∈ m.tiles := by
  unfold Map.get_tile
  have hidx : (y * m.width + x) % 65536 < m.tiles.length := by
    rcases Nat.lt_or_ge (m.width * m.height) 65536 with hsm | hlg
    · have h1 : y * m.width + x < m.width * m.height := by
        calc y * m.width + x < y * m.width + m.width := by omega
          _ = (y + 1) * m.width := by ring
          _ ≤ m.height * m.width := Nat.mul_le_mul_right _ (by omega)
          _ = m.width * m.height := Nat.mul_comm _ _
      rw [Nat.mod_eq_of_lt (lt_trans h1 hsm)]
      omega
    · have := Nat.mod_lt (y * m.width + x) (show 0 < 65536 by omega)
      omega
  rw [List.getD_eq_getElem _ _ hidx]
  exact List.getElem_mem hidx

/-- A tile that is neither ground nor of positive height leaves the
builder untouched. -/
theorem buildStep_eq_self (b : MapMeshBuilder) (x y : Nat)
    (h1 : (b.map.get_tile x y).is_ground = false)
    (h2 : (b.map.get_tile x y).height = 0) :
    b.buildStep x y = b := by
  unfold MapMeshBuilder.buildStep
  simp [h1, h2]

/-- A whole row of inert tiles leaves the builder untouched. -/
theorem foldl_buildStep_row (y : Nat) (l : List Nat) :
    ∀ b : MapMeshBuilder,
    (∀ x ∈ l, (b.map.get_tile x y).is_ground = false ∧
      (b.map.get_tile x y).height = 0) →
    l.foldl (fun bc x => bc.buildStep x y) b = b := by
  induction l with
  | nil => intro b _; rfl
  | cons a tl ih =>
    intro b h
    rw [List.foldl_cons,
      buildStep_eq_self b a y (h a (by simp)).1 (h a (by simp)).2]
    exact ih b (fun x hx => h x (by simp [hx]))

/-- A whole grid of inert tiles leaves the builder untouched. -/
theorem foldl_buildStep_grid (rows : List Nat) :
    ∀ b : MapMeshBuilder,
    (∀ y ∈ rows, ∀ x ∈ List.range b.map.width,
      (b.map.get_tile x y).is_ground = false ∧
      (b.map.get_tile x y).height = 0) →
    rows.foldl (fun br y =>
      (List.range br.map.width).foldl (fun bc x => bc.buildStep x y) br) b
      = b := by
  induction rows with
  | nil => intro b _; rfl
  | cons a tl ih =>
    intro b h
    rw [List.foldl_cons, foldl_buildStep_row a _ b (h a (by simp))]
    exact ih b (fun y hy => h y (by simp [hy]))

end LittleTanks

namespace LittleTanks

/-! Claim theorems. -/

set_option maxRecDepth 10000 in
/-- C1 (counterexample): one face emission (`add_top_side` on a fresh
`CubeMaker`) appends 6 vertices, not 4, and its indices are the
consecutive sequence, not the fan pattern `[0, 1, 2, 0, 2, 3]`. -/
theorem C1_counterexample :
    (CubeMaker.new.add_top_side (0, 0, 0) 1 atlas512).vertices.length ≠ 4 ∧
    (CubeMaker.new.add_top_side (0, 0, 0) 1 atlas512).indexes ≠
      [0, 1, 2, 0, 2, 3] := by
  decide

/-- C1 (amended): every call that emits one cube face appends exactly 6
new vertices and 6 new indices, the indices being the positions of the
6 freshly appended vertices (truncated to 16 bits), so vertices are not
shared between the two triangles; a 1x1 map containing a single Ground
tile yields exactly 6 vertices and the indices `[0, 1, 2, 3, 4, 5]`. -/
theorem C1_face_emission :
    (∀ (s : CubeMaker) (cs : CubeSide) (pos : ℚ × ℚ × ℚ) (size : ℚ)
      (tex : Texture),
      (s.add_side cs pos size tex).vertices.length = s.vertices.length + 6 ∧
      (s.add_side cs pos size tex).indexes = s.indexes ++
        [s.vertices.length % 65536, (s.vertices.length + 1) % 65536,
         (s.vertices.length + 2) % 65536, (s.vertices.length + 3) % 65536,
         (s.vertices.length + 4) % 65536,
         (s.vertices.length + 5) % 65536]) ∧
    groundBuilder.build_mesh.cube_maker.vertices.length = 6 ∧
    groundBuilder.build_mesh.cube_maker.indexes = [0, 1, 2, 3, 4, 5] :=
  ⟨CubeMaker.add_side_shape, by decide, by decide⟩

/-- C2 (counterexample): the mesh for a 1x1 map holding a single Wall3
tile has 78 vertices, not 52. -/
theorem C2_counterexample :
    wall3Builder.build_mesh.cube_maker.vertices.length = 78 ∧
    wall3Builder.build_mesh.cube_maker.vertices.length ≠ 52 := by
  decide

set_option maxRecDepth 10000 in
/-- C2 (amended): a 1x1 map holding a single Wall3 tile emits 13 faces
(4 side faces at each of the 3 levels plus one top face at the topmost
level), and since every face contributes 6 vertices and 6 indices the
buffers hold 13 * 6 = 78 vertices and 78 indices, the indices being
`0, ..., 77` in order. -/
theorem C2_wall3_counts :
    wall3Builder.build_mesh.cube_maker.vertices.length = 13 * 6 ∧
    wall3Builder.build_mesh.cube_maker.indexes.length = 13 * 6 ∧
    wall3Builder.build_mesh.cube_maker.indexes = List.range 78 := by
  decide

/-- C3 (counterexample): the dimension check multiplies two `u16`
values, so it wraps: a 256 x 256 map with an empty grid is accepted
although `0 ≠ 256 * 256`. -/
theorem C3_counterexample :
    Map.open [] 256 256 =
      Except.ok { width := 256, height := 256, tiles := [] } ∧
    List.length ([] : List Nat) ≠ 256 * 256 :=
  ⟨rfl, by decide⟩

/-- C3 (amended): `Map.open` succeeds exactly when the decoded grid
length equals `width * height` reduced modulo 2^16 (the `u16` product
of the Rust source); on success the map carries the given dimensions
and the gid-decoded grid, otherwise the InvalidMap "Invalid dimensions"
error is returned.  For dimensions whose true product stays below 2^16
(such as the 2x2 examples) this is the claimed length check. -/
theorem C3_open_characterization (data : List Nat) (w h : Nat) :
    Map.open data w h =
      if data.length = (w * h) % 65536 then
        Except.ok { width := w, height := h,
                    tiles := data.map
                      (fun g => (Tile.from_gid g).getD Tile.Oob) }
      else Except.error (GameError.InvalidMap "Invalid dimensions") := by
  unfold Map.open
  rcases eq_or_ne data.length ((w * h) % 65536) with hc | hc
  · simp [hc]
  · simp [hc, Ne.symm hc]

/-- C4: the gid-to-Tile mapping is a bijection over the enumerated
gids: `from_gid g = some t` holds exactly when `t.get_gid = g`; in
particular the round-trips both ways, and a gid backing no variant can
never produce a tile. -/
theorem C4_gid_bijection (g : Nat) (t : Tile) :
    Tile.from_gid g = some t ↔ t.get_gid = g := by
  constructor
  · intro h
    rcases Nat.lt_or_ge g 41 with hg | hg
    · exact from_gid_gid_lt g t hg h
    · rw [from_gid_none_of_ge g hg] at h
      exact absurd h (by simp)
  · intro h
    subst h
    cases t <;> rfl

/-- C5: the atlas slice of any tile sits at cell index `gid - 1`,
column `index % 8`, row `index / 8`, with cell size an eighth of the
atlas; for a 512x512 atlas and gid 9 (the Ground tile) the slice is at
offset (0, 64) with size (64, 64) and measures
`(0.125, 0.125, 0.0, 0.125)`. -/
theorem C5_atlas_addressing :
    (∀ (t : Tile) (tex : Texture),
      t.get_texture_slice tex =
        tex.slice (((t.get_gid - 1) % 8) * (tex.width / 8))
          (((t.get_gid - 1) / 8) * (tex.height / 8))
          (tex.width / 8) (tex.height / 8)) ∧
    Tile.Ground.get_gid = 9 ∧
    Tile.Ground.get_texture_slice atlas512 =
      { width := 64, height := 64, offset_x := 0, offset_y := 64,
        info_width := 512, info_height := 512 } ∧
    (Tile.Ground.get_texture_slice atlas512).get_measurements =
      (1/8, 1/8, 0, 1/8) :=
  ⟨fun t tex => rfl, rfl, by decide, by
    simp [Tile.get_texture_slice, Tile.get_gid, atlas512, BasicTexture,
      Texture.slice, Texture.get_measurements]
    norm_num⟩

/-- C6: a tile is ground exactly when it is a spawn, the out-of-bounds
tile, or the ground tile; in particular every spawn tile is ground. -/
theorem C6_is_ground_iff (t : Tile) :
    t.is_ground = true ↔
      (t.is_spawn = true ∨ t = Tile.Oob ∨ t = Tile.Ground) := by
  revert t
  decide

/-- C7: for a ground-classified tile the builder's per-cell step emits
exactly one face: a top face at stack level 0, at world position
`(x * tileSize, 0, (height - y - 1) * tileSize)`, textured with the
canonical Ground tile's atlas slice, never the tile's own slice. -/
theorem C7_ground_emits_one_top_face (b : MapMeshBuilder) (x y : Nat)
    (h : (b.map.get_tile x y).is_ground = true) :
    b.buildStep x y =
      { b with
        cube_maker :=
          b.cube_maker.add_top_side
            ((x : ℚ) * b.tile_size, 0,
              ((b.map.height - y - 1 : ℕ) : ℚ) * b.tile_size)
            b.tile_size (Tile.Ground.get_texture_slice b.texture_map) } := by
  unfold MapMeshBuilder.buildStep MapMeshBuilder.add_ground_tile
    MapMeshBuilder.get_pos
  rw [if_pos h]
  norm_num

/-- C7 (witness): the single Ground tile of the 1x1 ground map
satisfies the hypothesis and triggers the top-face emission. -/
theorem C7_witness :
    (groundBuilder.map.get_tile 0 0).is_ground = true ∧
    groundBuilder.buildStep 0 0 =
      { groundBuilder with
        cube_maker :=
          groundBuilder.cube_maker.add_top_side
            (((0 : ℕ) : ℚ) * groundBuilder.tile_size, 0,
              ((groundBuilder.map.height - 0 - 1 : ℕ) : ℚ) *
                groundBuilder.tile_size)
            groundBuilder.tile_size
            (Tile.Ground.get_texture_slice groundBuilder.texture_map) } :=
  ⟨by decide, C7_ground_emits_one_top_face groundBuilder 0 0 (by decide)⟩

/-- C8 (counterexample): the Water tile is neither ground nor an
obstacle, refuting the claim that every enumerated tile is one of the
two. -/
theorem C8_counterexample :
    Tile.Water.is_ground = false ∧ Tile.Water.height = 0 := by
  decide

/-- C8 (amended): the tiles that are neither ground nor an obstacle are
exactly Water, Swamp and Hole; every other enumerated tile is ground or
has positive height. -/
theorem C8_ground_or_obstacle :
    ∀ t : Tile, (t.is_ground = false ∧ t.height = 0) ↔
      (t = Tile.Water ∨ t = Tile.Swamp ∨ t = Tile.Hole) := by
  decide

/-- C9: starting from a fresh `CubeMaker`, after any sequence of
`add_side` / per-face wrapper / `add_all_sides` calls the index buffer
and the vertex buffer have equal length and the index at position `i`
is `i % 2^16`, i.e. the indices are the consecutive sequence of vertex
positions truncated to 16 bits. -/
theorem C9_buffer_invariant (ops : List CubeOp) :
    (ops.foldl CubeMaker.applyOp CubeMaker.new).indexes.length =
      (ops.foldl CubeMaker.applyOp CubeMaker.new).vertices.length ∧
    (ops.foldl CubeMaker.applyOp CubeMaker.new).indexes =
      (List.range
        (ops.foldl CubeMaker.applyOp CubeMaker.new).vertices.length).map
        (fun i => i % 65536) := by
  have h := consecutiveIndexes_foldl ops CubeMaker.new rfl
  unfold consecutiveIndexes at h
  exact ⟨by rw [h]; simp, h⟩

/-- C10: a well-formed map whose tiles are all Water, Swamp or Hole
produces an empty mesh: no vertices and no indices. -/
theorem C10_inert_map_empty_mesh (m : Map) (tex : Texture) (ts : ℚ)
    (hw : m.tiles.length = m.width * m.height)
    (hall : ∀ t ∈ m.tiles,
      t = Tile.Water ∨ t = Tile.Swamp ∨ t = Tile.Hole) :
    ((MapMeshBuilder.new tex m ts).build_mesh).cube_maker.vertices = [] ∧
    ((MapMeshBuilder.new tex m ts).build_mesh).cube_maker.indexes = [] := by
  have hgrid := foldl_buildStep_grid (List.range m.height)
    (MapMeshBuilder.new tex m ts) ?hcond
  case hcond =>
    intro y hy x hx
    have hmem := Map.get_tile_mem m x y hw (List.mem_range.mp hx)
      (List.mem_range.mp hy)
    show (m.get_tile x y).is_ground = false ∧ (m.get_tile x y).height = 0
    rcases hall _ hmem with h | h | h <;> rw [h] <;> exact ⟨rfl, rfl⟩
  unfold MapMeshBuilder.build_mesh
  rw [show (MapMeshBuilder.new tex m ts).map.height = m.height from rfl,
    hgrid]
  exact ⟨rfl, rfl⟩

/-- C10 (witness): the 1x1 all-Water map satisfies both hypotheses and
builds an empty mesh. -/
theorem C10_witness :
    waterMap.tiles.length = waterMap.width * waterMap.height ∧
    (∀ t ∈ waterMap.tiles,
      t = Tile.Water ∨ t = Tile.Swamp ∨ t = Tile.Hole) ∧
    ((MapMeshBuilder.new atlas512 waterMap 1).build_mesh).cube_maker.vertices
      = [] ∧
    ((MapMeshBuilder.new atlas512 waterMap 1).build_mesh).cube_maker.indexes
      = [] := by
  refine ⟨by decide, by decide, ?_⟩
  exact C10_inert_map_empty_mesh waterMap atlas512 1 (by decide) (by decide)

end LittleTanks
